import Mathlib

/-!
Verification development for the `paraview-python-driver` repository
(`src/driver.py`, `src/install.py`).

The Python code is shallowly embedded: the path bookkeeping of
`ParaViewDriver` becomes pure functions over a driver-state structure
(the process working directory, which `os.path.abspath` consults, is an
explicit argument), the scoped file-descriptor redirection of
`IgnoreOutput` becomes explicit state passing over a file-descriptor
table, and the installer's search/copy logic becomes functions over the
candidate-location list with the file system abstracted as predicates.
-/

namespace PVDriver

/-! ### POSIX path primitives (`os.path` on posix)

Faithful models of the `posixpath` functions the driver uses:
`join`, `isabs`, `dirname`, `basename`, `normpath`, `abspath`.
`abspath` takes the process working directory explicitly.
-/

/-- Splits a character list on a separator character (like `str.split(sep)`
for a one-character separator: adjacent separators yield empty pieces). -/
def splitOnChar (c : Char) : List Char → List Char → List (List Char)
  | acc, [] => [acc.reverse]
  | acc, x :: xs =>
    if x = c then acc.reverse :: splitOnChar c [] xs
    else splitOnChar c (x :: acc) xs

/-- Model of `os.path.isabs` on posix: the path begins with a slash. -/
def isabs (p : String) : Bool :=
  match p.data with
  | '/' :: _ => true
  | _ => false

/-- Whether the string ends with the given character. -/
def endsWithChar (p : String) (c : Char) : Bool :=
  match p.data.reverse with
  | x :: _ => x = c
  | [] => false

/-- Model of `os.path.join a b` on posix (two-argument form): if `b` is absolute it
replaces `a`; otherwise `b` is appended, inserting a slash unless `a` is
empty or already ends in one. -/
def join (a b : String) : String :=
  if isabs b then b
  else if a = "" || endsWithChar a '/' then a ++ b
  else a ++ "/" ++ b

/-- Model of `os.path.dirname` on posix: everything up to the final slash, with
trailing slashes stripped unless the head consists only of slashes. -/
def dirname (p : String) : String :=
  let head := (p.toList.reverse.dropWhile (· ≠ '/')).reverse
  if head.all (· = '/') then String.mk head
  else String.mk ((head.reverse.dropWhile (· = '/')).reverse)

/-- Model of `os.path.basename` on posix: everything after the final slash. -/
def basename (p : String) : String :=
  String.mk ((p.toList.reverse.takeWhile (· ≠ '/')).reverse)

/-- Component normalization inside `normpath`: drops `.`, resolves `..`
against preceding components (a leading run of `..` survives in a relative
path and vanishes at the root of an absolute one). `acc` holds the already
processed components in reverse. -/
def normParts (isAbsolute : Bool) : List String → List String → List String
  | acc, [] => acc.reverse
  | acc, c :: rest =>
    if c = ".." then
      match acc with
      | [] =>
        if isAbsolute then normParts isAbsolute [] rest
        else normParts isAbsolute [".."] rest
      | a :: as =>
        if a = ".." then normParts isAbsolute (".." :: a :: as) rest
        else normParts isAbsolute as rest
    else normParts isAbsolute (c :: acc) rest

/-- Model of `os.path.normpath` on posix: collapses repeated slashes, removes `.`
components and resolves `..` lexically.  (The POSIX special case of a path
starting with exactly two slashes is not modelled; no path in this
development starts with `//`.) -/
def normpath (p : String) : String :=
  if p = "" then "." else
  let abs := isabs p
  let comps :=
    ((splitOnChar '/' [] p.data).map String.mk).filter
      (fun c => c ≠ "" && c ≠ ".")
  let comps := normParts abs [] comps
  let body := String.intercalate "/" comps
  if abs then "/" ++ body
  else if body = "" then "." else body

/-- Model of `os.path.abspath` on posix: `normpath(join(cwd, p))`, with the process
working directory `cwd` passed explicitly. -/
def abspath (cwd p : String) : String := normpath (join cwd p)

/-- Model of `os.curdir` on posix. -/
def curdir : String := "."

/-- Python string truthiness combined with `or` for an optional string
(`None` and the empty string are falsy): `a or b` where `a` may be `None`. -/
def pyOrStr (a : Option String) (b : String) : String :=
  match a with
  | some s => if s = "" then b else s
  | none => b


/-! ### `ParaViewDriver` state and path bookkeeping (`src/driver.py`) -/

/-- Class attribute `filetype_out_default`. -/
def filetype_out_default : String := "pdf"

/-- Class attribute `measure_quad` (default quadrilateral quality measure). -/
def measure_quad_default : String := "Skew"

/-- Class attribute `measure_triangle` (default triangular quality measure). -/
def measure_triangle_default : String := "Radius Ratio"

/-- Class attribute `print_filenames.quality`. -/
def print_filenames_quality : String := "mesh_quality_ParaView"

/-- Class attribute `print_filenames.mesh`. -/
def print_filenames_mesh : String := "mesh_ParaView"

/-- Class attribute `print_filenames.distribution`. -/
def print_filenames_distribution : String := "mesh_quality_distribution"

/-- The instance attributes of `ParaViewDriver` relevant to path and
quality-measure bookkeeping.  `out_dir` is kept optional so that
`_out_dir`'s full `or`-chain can be stated; `__init__` always stores a
non-empty string there.  `print_filename` is the placeholder assigned by
`_set_print_filename`. -/
structure ParaViewDriver where
  mesh_flow_src : String
  filetype : String
  out_dir : Option String
  measure_quad : String
  measure_triangle : String
  print_filename : Option String
  deriving Repr, DecidableEq

/-- Model of `ParaViewDriver.__init__`: stores the source path, applies the
`or`-defaults `out_filetype or self.filetype_out_default` and
`out_dir or curdir`, and leaves the class-level measure defaults. -/
def ParaViewDriver.init
    (mesh_flow_src : String) (out_filetype : Option String)
    (out_dir : Option String) : ParaViewDriver :=
  { mesh_flow_src := mesh_flow_src
    filetype := pyOrStr out_filetype filetype_out_default
    out_dir := some (pyOrStr out_dir curdir)
    measure_quad := measure_quad_default
    measure_triangle := measure_triangle_default
    print_filename := none }

/-- Model of `ParaViewDriver._out_dir`:
`abspath(out_dir or self.out_dir or dirname(self.mesh_flow_src))`. -/
def ParaViewDriver.outDir
    (d : ParaViewDriver) (cwd : String) (out_dir : Option String) : String :=
  abspath cwd
    (pyOrStr out_dir (pyOrStr d.out_dir (dirname d.mesh_flow_src)))

/-- Model of `ParaViewDriver._make_abs_path`: a non-absolute name is joined with the
resolved output directory; an absolute name is returned unchanged. -/
def ParaViewDriver.makeAbsPath
    (d : ParaViewDriver) (cwd : String) (filename_out : String)
    (out_dir : Option String) : String :=
  if ¬ isabs filename_out then join (d.outDir cwd out_dir) filename_out
  else filename_out

/-- Model of `ParaViewDriver._set_print_filename`: stores
`f"{self._make_abs_path(file_out, out_dir)}.{self.filetype}"` in
`self.print_filename`. -/
def ParaViewDriver.setPrintFilename
    (d : ParaViewDriver) (cwd : String) (file_out : String)
    (out_dir : Option String) : ParaViewDriver :=
  let fo := d.makeAbsPath cwd file_out out_dir
  { d with print_filename := some (fo ++ "." ++ d.filetype) }

/-! ### Quality-measure keyword handling -/

/-- The `**measure` keyword dictionary as it reaches
`_setup_mesh_quality`: the three recognized keys, plus a flag recording
whether any other keyword was present (it influences only the
`if measure:` emptiness test). -/
structure MeasureKwargs where
  quad : Option String
  tri : Option String
  triangle : Option String
  hasOther : Bool
  deriving Repr, DecidableEq

/-- The empty keyword dictionary. -/
def MeasureKwargs.empty : MeasureKwargs :=
  ⟨none, none, none, false⟩

/-- Python truthiness of the `measure` dict: non-empty. -/
def MeasureKwargs.nonempty (m : MeasureKwargs) : Bool :=
  m.quad.isSome || m.tri.isSome || m.triangle.isSome || m.hasOther

/-- Model of `ParaViewDriver._setup_mesh_quality`: when the keyword dict is
non-empty, `self.measure_quad = measure.get('quad', self.measure_quad)`,
then `self.measure_triangle = measure.get('tri', self.measure_triangle)`,
then `self.measure_triangle = measure.get('triangle',
self.measure_triangle)`; the quality source is then configured from the
(possibly updated) instance attributes.  Returns the updated driver and
the pair `(QuadQualityMeasure, TriangleQualityMeasure)` set on the
`MeshQuality` source. -/
def ParaViewDriver.setupMeshQuality
    (d : ParaViewDriver) (m : MeasureKwargs) :
    ParaViewDriver × String × String :=
  let d' :=
    if m.nonempty then
      let mq := m.quad.getD d.measure_quad
      let mt := m.tri.getD d.measure_triangle
      let mt := m.triangle.getD mt
      { d with measure_quad := mq, measure_triangle := mt }
    else d
  (d', d'.measure_quad, d'.measure_triangle)

/-- Model of the `ParaViewDriver.get_quality` effect on the driver state: it only
calls `_setup_mesh_quality` (the fetched array lives in the external
engine and is not modelled). -/
def ParaViewDriver.getQuality
    (d : ParaViewDriver) (m : MeasureKwargs) : ParaViewDriver :=
  (d.setupMeshQuality m).1

/-! ### `print_quality` (`src/driver.py` lines 133-233)

Only effects observable outside the external engine are modelled: the
driver-state updates, the value of the color-bar title, the orientation
of the `Quality` color transfer function (a boolean that each
`InvertTransferFunction()` call flips), and the ordered trace of scene
operations from the export onward. -/

/-- Scene operations of `print_quality` recorded in order.  `exportView`
carries the print filename and the transfer-function orientation at the
moment of the export. -/
inductive SceneOp where
  | invertTransferFunction
  | exportView (filename : String) (lutInverted : Bool)
  | hideQuality
  | hideScalarBarIfNotNeeded
  deriving Repr, DecidableEq

/-- Result of a `print_quality` call. -/
structure PrintQualityResult where
  state : ParaViewDriver
  colorBarTitle : String
  lutAtExport : Bool
  lutFinal : Bool
  trace : List SceneOp
  deriving Repr, DecidableEq

/-- Model of `ParaViewDriver.print_quality`: sets the print filename from
`file_out or self.print_filenames.quality` (note: `out_dir` is *not*
forwarded to `_set_print_filename` here), rebuilds the quality filter via
`_setup_mesh_quality(**measure)`, computes the color-bar title
`color_bar_title or f'Quality - Quad: {self.measure_quad} - Tri:
{self.measure_triangle}'`, inverts the transfer function when
`invert_colors`, exports the view, hides the quality data, hides the
scalar bar if not needed, and re-inverts the transfer function when
`invert_colors`.  `lut0` is the transfer function's orientation on
entry. -/
def ParaViewDriver.printQuality
    (d : ParaViewDriver) (cwd : String) (file_out : Option String)
    (color_bar_title : Option String) (invert_colors : Bool)
    (m : MeasureKwargs) (lut0 : Bool) : PrintQualityResult :=
  let d1 := d.setPrintFilename cwd (pyOrStr file_out print_filenames_quality) none
  let d2 := (d1.setupMeshQuality m).1
  let title :=
    pyOrStr color_bar_title
      ("Quality - Quad: " ++ d2.measure_quad ++ " - Tri: " ++ d2.measure_triangle)
  let lutPre := if invert_colors then !lut0 else lut0
  let lutPost := if invert_colors then !lutPre else lutPre
  let fname := (d1.print_filename).getD ""
  { state := d2
    colorBarTitle := title
    lutAtExport := lutPre
    lutFinal := lutPost
    trace :=
      (if invert_colors then [SceneOp.invertTransferFunction] else []) ++
      [SceneOp.exportView fname lutPre, SceneOp.hideQuality,
       SceneOp.hideScalarBarIfNotNeeded] ++
      (if invert_colors then [SceneOp.invertTransferFunction] else []) }

/-! ### `print_quality_distribution` (`src/driver.py` lines 301-365) -/

/-- Whether the string contains a dot (`'.' in filename`). -/
def containsDot (s : String) : Bool := s.data.any (· = '.')

/-- Model of `filename.rsplit('.', 1)[-1]`: the text after the last dot. -/
def afterLastDot (s : String) : String :=
  String.mk ((s.data.reverse.takeWhile (· ≠ '.')).reverse)

/-- Result of a `print_quality_distribution` call. -/
structure DistributionResult where
  state : ParaViewDriver
  /-- The plot title (`title or f'Mesh quality quads: {self.measure_quad}'`). -/
  plotTitle : String
  /-- The filename after the inference block, before `_make_abs_path`. -/
  filename : String
  /-- The format passed to `plt.savefig`. -/
  fmt : String
  /-- The absolute path passed to `plt.savefig`. -/
  savedPath : String
  deriving Repr, DecidableEq

/-- Model of `ParaViewDriver.print_quality_distribution`: when no `qoi_array` is
given (`qoiGiven = false`) the quality array is recomputed via
`get_quality(**quality_kwds)`, updating the measure attributes; the
filename inference then runs (`fmt` is overwritten from the extension when
the given filename contains a dot, the extension is appended when it does
not, and the default name is
`f"{self.print_filenames.distribution}_{self.measure_quad}.{fmt}"`),
and the figure is saved at `self._make_abs_path(filename, out_dir)`. -/
def ParaViewDriver.printQualityDistribution
    (d : ParaViewDriver) (cwd : String) (qoiGiven : Bool)
    (title : Option String) (fmt : String) (filename : Option String)
    (out_dir : Option String) (m : MeasureKwargs) : DistributionResult :=
  let d1 := if qoiGiven then d else d.getQuality m
  let plotTitle := pyOrStr title ("Mesh quality quads: " ++ d1.measure_quad)
  let fnfmt : String × String :=
    match filename with
    | some f =>
      if containsDot f then (f, afterLastDot f)
      else (f ++ "." ++ fmt, fmt)
    | none =>
      (print_filenames_distribution ++ "_" ++ d1.measure_quad ++ "." ++ fmt, fmt)
  { state := d1
    plotTitle := plotTitle
    filename := fnfmt.1
    fmt := fnfmt.2
    savedPath := d1.makeAbsPath cwd fnfmt.1 out_dir }

/-! ### `IgnoreOutput` (`src/driver.py` lines 464-481)

The process's file-descriptor table is modelled as an association list
from descriptor numbers to open file descriptions; an open file
description is either the null device (opened from `os.devnull`) or an
externally created description identified by a number.  `os.dup` and
`os.open` allocate a fresh descriptor (POSIX allocates the lowest free
number; the model only relies on freshness and uses one more than the
largest table key), `os.dup2(src, dst)` makes `dst` refer to `src`'s
description, and `os.close` removes a descriptor.  A write to descriptor
`n` reaches `lookupFd t n`; it is discarded exactly when that is the null
device. -/

/-- An open file description. -/
inductive OFD where
  | null
  | ext (id : Nat)
  deriving Repr, DecidableEq

/-- The file-descriptor table. -/
abbrev FdTable := List (Nat × OFD)

/-- The description a descriptor refers to, if open. -/
def lookupFd : FdTable → Nat → Option OFD
  | [], _ => none
  | (k, v) :: t, n => if k = n then some v else lookupFd t n

/-- Point descriptor `n` at description `v` (as `dup2` does for its
target). -/
def setFd (t : FdTable) (n : Nat) (v : OFD) : FdTable :=
  (n, v) :: t.filter (fun p => p.1 ≠ n)

/-- Model of `os.close n`: remove descriptor `n`. -/
def closeFd (t : FdTable) (n : Nat) : FdTable :=
  t.filter (fun p => p.1 ≠ n)

/-- A descriptor number that is not open in `t` (one more than the largest
key; POSIX would pick the lowest free number, which the claims never
depend on). -/
def freshFd (t : FdTable) : Nat :=
  (t.map Prod.fst).foldr max 0 + 1

/-- The state of an `IgnoreOutput` instance: the target descriptor
(`self.id_n`, default 2), the descriptor opened on `os.devnull`
(`self._devnull`) and the duplicate of the target (`self._newstderr`). -/
structure IgnoreOutput where
  id_n : Nat
  devnullFd : Nat
  newstderr : Nat
  deriving Repr, DecidableEq

/-- Model of `IgnoreOutput.__init__`: `self._devnull = os.open(os.devnull,
os.O_WRONLY)` then `self._newstderr = os.dup(self.id_n)`.  Fails (as
`os.dup` would) when `id_n` is not open. -/
def IgnoreOutput.init (t : FdTable) (id_n : Nat) :
    Option (IgnoreOutput × FdTable) :=
  let dn := freshFd t
  let t1 := setFd t dn OFD.null
  match lookupFd t1 id_n with
  | none => none
  | some d =>
    let sv := freshFd t1
    some (⟨id_n, dn, sv⟩, setFd t1 sv d)

/-- Model of `IgnoreOutput.__enter__`: `os.dup2(self._devnull, self.id_n)` then
`os.close(self._devnull)`. -/
def IgnoreOutput.enter (io_ : IgnoreOutput) (t : FdTable) : Option FdTable :=
  match lookupFd t io_.devnullFd with
  | none => none
  | some d => some (closeFd (setFd t io_.id_n d) io_.devnullFd)

/-- Model of `IgnoreOutput.__exit__`: `os.dup2(self._newstderr, self.id_n)`. -/
def IgnoreOutput.exit (io_ : IgnoreOutput) (t : FdTable) : Option FdTable :=
  match lookupFd t io_.newstderr with
  | none => none
  | some d => some (setFd t io_.id_n d)

/-- The `with IgnoreOutput(id_n):` statement around a block `body`.  The
block transforms the table and reports whether it finished normally
(`true`) or raised (`false`); Python runs `__exit__` on both paths.
Returns the table right after `__enter__` (the state in which the block's
writes happen), the table after `__exit__`, and the block's outcome
flag. -/
def runWithIgnoreOutput (t : FdTable) (id_n : Nat)
    (body : FdTable → FdTable × Bool) :
    Option (FdTable × FdTable × Bool) :=
  match IgnoreOutput.init t id_n with
  | none => none
  | some (io_, t1) =>
    match io_.enter t1 with
    | none => none
    | some t2 =>
      let r := body t2
      match io_.exit r.1 with
      | none => none
      | some t3 => some (t2, t3, r.2)

/-- The saved-duplicate descriptor number `IgnoreOutput.__init__`
allocates when constructed on table `t` (used to phrase the
"block does not disturb the saved descriptor" hypothesis). -/
def savedFdOf (t : FdTable) : Nat :=
  freshFd (setFd t (freshFd t) OFD.null)

/-- A write issued to descriptor `n` in table `t` is discarded exactly
when the descriptor refers to the null device. -/
def writeDiscarded (t : FdTable) (n : Nat) : Prop :=
  lookupFd t n = some OFD.null

/-! ### Installer (`src/install.py`) -/

/-- Model of the f-string `"libvtk{file}-pv5.10.so.1"`. -/
def soFileName (file : String) : String :=
  "libvtk" ++ file ++ "-pv5.10.so.1"

/-- The suffix of `s` after the last occurrence of `sep` (as a start
position), or `none` when `sep` does not occur.  For a separator that
cannot overlap itself — such as `"python"` — this is the final piece of
`str.split(sep)`. -/
def afterLastOcc (sep : List Char) : List Char → Option (List Char)
  | [] => none
  | c :: cs =>
    match afterLastOcc sep cs with
    | some r => some r
    | none =>
      if sep.isPrefixOf (c :: cs) then some ((c :: cs).drop sep.length)
      else none

/-- Model of `src_python_dir.rsplit('python')[-1]`: the text after the
last occurrence of `"python"` (the whole string when it does not
occur). -/
def afterLastPython (s : String) : String :=
  match afterLastOcc ['p', 'y', 't', 'h', 'o', 'n'] s.data with
  | some r => String.mk r
  | none => s

/-- The fixed list the installer's shared-object loop iterates over, in
source order; the fourth entry's name depends on the located Python
directory's version suffix. -/
def soBaseList (src_python_dir : String) : List String :=
  ["RemotingCore", "CommonMisc", "CommonCore",
   "WrappingPythonCore" ++ afterLastPython src_python_dir,
   "FiltersProgrammable", "RemotingServerManager", "RemotingSettings",
   "RemotingApplication", "PVInSitu"]

/-- The marker path probed for a candidate whose python subdirectory is
`py`: `join(src_python_dir, "site-packages", "vtk.py")`. -/
def markerPath (py : String) : String :=
  join (join py "site-packages") "vtk.py"

/-- The search loop over `paraview_locations` (`src/install.py` lines
46-50): `src_python_dir, src_lib_dir = None, None`, then for each
candidate `src_lib_dir`, `src_python_dir = python_src(src_lib_dir)` and
the loop breaks when the marker file exists.  When no candidate matches,
both variables are left holding the last candidate's values.  `pythonSrc`
abstracts the `find`-based `python_src` lookup and `isfile` the file
system. -/
def selectSrcDirs (pythonSrc : String → String) (isfile : String → Bool) :
    List String → Option String × Option String
  | [] => (none, none)
  | loc :: rest =>
    let py := pythonSrc loc
    if isfile (markerPath py) then (some py, some loc)
    else
      match rest with
      | [] => (some py, some loc)
      | r :: rs => selectSrcDirs pythonSrc isfile (r :: rs)

/-- Model of `paraview_locations` (`src/install.py` lines 41-45): the `find`-located
`lib*` directory under `~/paraview/build`, then `lib` and `lib64` under
the install prefix.  `findLibFolder` abstracts
`find_folder(join(HOME, "paraview", "build"), 'lib*')`. -/
def paraviewLocations (findLibFolder : String) (prefix_dir : String) :
    List String :=
  [findLibFolder, join prefix_dir "lib", join prefix_dir "lib64"]

/-- One entry of `os.scandir` over the source `site-packages`: its name
and whether it is a regular file. -/
structure DirEnt where
  name : String
  is_file : Bool
  deriving Repr, DecidableEq

/-- A copy operation performed by the installer: `copyfile` for files,
`copytree` for directories. -/
inductive CopyOp where
  | file (src dst : String)
  | tree (src dst : String)
  deriving Repr, DecidableEq

/-- The site-packages copy loop (`src/install.py` lines 56-61): each entry
of the source `site-packages` is copied (file or tree) to
`join(dest_site, entry.name)`. -/
def sitePackagesCopyPlan (src_python_dir dest_site : String)
    (entries : List DirEnt) : List CopyOp :=
  entries.map (fun e =>
    let src := join (join src_python_dir "site-packages") e.name
    let dst := join dest_site e.name
    if e.is_file then CopyOp.file src dst else CopyOp.tree src dst)

/-- The shared-object copy loop (`src/install.py` lines 63-77): for each
name in the fixed list, `copyfile(join(src_lib_dir, filename),
join(exec_prefix, "lib", filename))`. -/
def soCopyPlan (src_lib_dir exec_prefix src_python_dir : String) :
    List CopyOp :=
  (soBaseList src_python_dir).map (fun f =>
    let filename := soFileName f
    CopyOp.file (join src_lib_dir filename)
      (join (join exec_prefix "lib") filename))

/-! ## Lemmas about the file-descriptor table -/

theorem lookupFd_none_of_gt (t : FdTable) (n : Nat)
    (h : (t.map Prod.fst).foldr max 0 < n) : lookupFd t n = none := by
  induction t with
  | nil => rfl
  | cons p t ih =>
    obtain ⟨k, v⟩ := p
    simp only [List.map_cons, List.foldr_cons, max_lt_iff] at h
    simp only [lookupFd, if_neg (Nat.ne_of_lt h.1), ih h.2]

theorem lookupFd_freshFd (t : FdTable) : lookupFd t (freshFd t) = none :=
  lookupFd_none_of_gt t _ (Nat.lt_succ_self _)

theorem lookupFd_filter_ne (t : FdTable) (n m : Nat) (h : m ≠ n) :
    lookupFd (t.filter (fun p => p.1 ≠ n)) m = lookupFd t m := by
  induction t with
  | nil => rfl
  | cons p t ih =>
    obtain ⟨k, v⟩ := p
    simp only [List.filter_cons]
    by_cases hk : k = n
    · rw [if_neg (by simp [hk])]
      rw [ih]
      have hkm : k ≠ m := by rw [hk]; exact Ne.symm h
      simp [lookupFd, hkm]
    · rw [if_pos (by simp [hk])]
      simp only [lookupFd]
      by_cases hkm : k = m
      · simp [hkm]
      · simp only [if_neg hkm]
        simpa using ih

theorem lookupFd_setFd_self (t : FdTable) (n : Nat) (v : OFD) :
    lookupFd (setFd t n v) n = some v := by
  simp [setFd, lookupFd]

theorem lookupFd_setFd_ne (t : FdTable) (n m : Nat) (v : OFD) (h : m ≠ n) :
    lookupFd (setFd t n v) m = lookupFd t m := by
  simp only [setFd, lookupFd, if_neg (Ne.symm h)]
  exact lookupFd_filter_ne t n m h

theorem lookupFd_closeFd_ne (t : FdTable) (n m : Nat) (h : m ≠ n) :
    lookupFd (closeFd t n) m = lookupFd t m :=
  lookupFd_filter_ne t n m h

/-! ## Claim theorems -/

/-- C5: for the scoped output-suppression resource `IgnoreOutput`, for any
file-descriptor table in which the target descriptor `id_n` is open and
any block that leaves the saved duplicate descriptor alone, the `with`
statement succeeds; during the block, writes to `id_n` are discarded
(the descriptor refers to the null device), and after the block exits —
normally or via an exception (`ok` is the block's outcome flag and does
not affect restoration) — `id_n` refers to the same open file description
it referred to before the block. -/
theorem ignoreOutput_discards_and_restores
    (t : FdTable) (id_n : Nat) (d : OFD) (body : FdTable → FdTable × Bool)
    (h : lookupFd t id_n = some d)
    (hbody : ∀ u, lookupFd (body u).1 (savedFdOf t) = lookupFd u (savedFdOf t)) :
    ∃ t2 t3 ok, runWithIgnoreOutput t id_n body = some (t2, t3, ok)
      ∧ writeDiscarded t2 id_n
      ∧ lookupFd t3 id_n = lookupFd t id_n := by
  have hdnid : id_n ≠ freshFd t := by
    intro he
    have h0 := lookupFd_freshFd t
    rw [← he, h] at h0
    exact Option.noConfusion h0
  have h1 : lookupFd (setFd t (freshFd t) OFD.null) id_n = some d := by
    rw [lookupFd_setFd_ne _ _ _ _ hdnid]; exact h
  have hsvid : freshFd (setFd t (freshFd t) OFD.null) ≠ id_n := by
    intro he
    have h0 := lookupFd_freshFd (setFd t (freshFd t) OFD.null)
    rw [he, h1] at h0
    exact Option.noConfusion h0
  have hsvdn : freshFd (setFd t (freshFd t) OFD.null) ≠ freshFd t := by
    intro he
    have h0 := lookupFd_freshFd (setFd t (freshFd t) OFD.null)
    rw [he, lookupFd_setFd_self] at h0
    exact Option.noConfusion h0
  have hinit : IgnoreOutput.init t id_n =
      some (⟨id_n, freshFd t, freshFd (setFd t (freshFd t) OFD.null)⟩,
        setFd (setFd t (freshFd t) OFD.null)
          (freshFd (setFd t (freshFd t) OFD.null)) d) := by
    simp [IgnoreOutput.init, h1]
  have hta_dn : lookupFd
      (setFd (setFd t (freshFd t) OFD.null)
        (freshFd (setFd t (freshFd t) OFD.null)) d) (freshFd t) =
      some OFD.null := by
    rw [lookupFd_setFd_ne _ _ _ _ (Ne.symm hsvdn)]
    exact lookupFd_setFd_self _ _ _
  have henter : IgnoreOutput.enter
      ⟨id_n, freshFd t, freshFd (setFd t (freshFd t) OFD.null)⟩
      (setFd (setFd t (freshFd t) OFD.null)
        (freshFd (setFd t (freshFd t) OFD.null)) d) =
      some (closeFd (setFd
        (setFd (setFd t (freshFd t) OFD.null)
          (freshFd (setFd t (freshFd t) OFD.null)) d) id_n OFD.null)
        (freshFd t)) := by
    simp [IgnoreOutput.enter, hta_dn]
  have ht2_id : lookupFd (closeFd (setFd
      (setFd (setFd t (freshFd t) OFD.null)
        (freshFd (setFd t (freshFd t) OFD.null)) d) id_n OFD.null)
      (freshFd t)) id_n = some OFD.null := by
    rw [lookupFd_closeFd_ne _ _ _ hdnid]
    exact lookupFd_setFd_self _ _ _
  have ht2_sv : lookupFd (closeFd (setFd
      (setFd (setFd t (freshFd t) OFD.null)
        (freshFd (setFd t (freshFd t) OFD.null)) d) id_n OFD.null)
      (freshFd t)) (freshFd (setFd t (freshFd t) OFD.null)) = some d := by
    rw [lookupFd_closeFd_ne _ _ _ hsvdn]
    rw [lookupFd_setFd_ne _ _ _ _ hsvid]
    exact lookupFd_setFd_self _ _ _
  have hbody' : lookupFd (body (closeFd (setFd
      (setFd (setFd t (freshFd t) OFD.null)
        (freshFd (setFd t (freshFd t) OFD.null)) d) id_n OFD.null)
      (freshFd t))).1 (freshFd (setFd t (freshFd t) OFD.null)) = some d := by
    have hb := hbody (closeFd (setFd
      (setFd (setFd t (freshFd t) OFD.null)
        (freshFd (setFd t (freshFd t) OFD.null)) d) id_n OFD.null)
      (freshFd t))
    rw [show savedFdOf t = freshFd (setFd t (freshFd t) OFD.null) from rfl] at hb
    rw [ht2_sv] at hb
    exact hb
  have hexit : IgnoreOutput.exit
      ⟨id_n, freshFd t, freshFd (setFd t (freshFd t) OFD.null)⟩
      (body (closeFd (setFd
        (setFd (setFd t (freshFd t) OFD.null)
          (freshFd (setFd t (freshFd t) OFD.null)) d) id_n OFD.null)
        (freshFd t))).1 =
      some (setFd (body (closeFd (setFd
        (setFd (setFd t (freshFd t) OFD.null)
          (freshFd (setFd t (freshFd t) OFD.null)) d) id_n OFD.null)
        (freshFd t))).1 id_n d) := by
    simp [IgnoreOutput.exit, hbody']
  have hrun : runWithIgnoreOutput t id_n body =
      some (closeFd (setFd
          (setFd (setFd t (freshFd t) OFD.null)
            (freshFd (setFd t (freshFd t) OFD.null)) d) id_n OFD.null)
          (freshFd t),
        setFd (body (closeFd (setFd
          (setFd (setFd t (freshFd t) OFD.null)
            (freshFd (setFd t (freshFd t) OFD.null)) d) id_n OFD.null)
          (freshFd t))).1 id_n d,
        (body (closeFd (setFd
          (setFd (setFd t (freshFd t) OFD.null)
            (freshFd (setFd t (freshFd t) OFD.null)) d) id_n OFD.null)
          (freshFd t))).2) := by
    simp only [runWithIgnoreOutput, hinit, henter, hexit]
  refine ⟨_, _, _, hrun, ht2_id, ?_⟩
  rw [lookupFd_setFd_self, h]

/-- C5 witness: a concrete table with descriptor 2 open on an external
description and a block that raises (outcome flag `false`). -/
theorem ignoreOutput_discards_and_restores_witness :
    lookupFd [(2, OFD.ext 0)] 2 = some (OFD.ext 0)
    ∧ ∃ t2 t3 ok,
        runWithIgnoreOutput [(2, OFD.ext 0)] 2 (fun u => (u, false)) =
          some (t2, t3, ok)
        ∧ writeDiscarded t2 2
        ∧ lookupFd t3 2 = lookupFd [(2, OFD.ext 0)] 2 :=
  ⟨by decide,
   ignoreOutput_discards_and_restores [(2, OFD.ext 0)] 2 (OFD.ext 0)
     (fun u => (u, false)) (by decide) (fun u => rfl)⟩

/-- C1: with no `out_dir` given at construction and none at the call,
`_out_dir` resolves to `abspath(os.curdir)` — the process working
directory — because `__init__` stores `out_dir or curdir`, which makes the
`dirname(self.mesh_flow_src)` fallback unreachable.  Evaluated at the
failing input: a driver built on `/data/flow.dat` with working directory
`/tmp` resolves the output directory to `/tmp`, while the input file's
directory is `/data`. -/
theorem pv_default_out_dir_resolves_to_cwd :
    (∀ (src : String) (oft : Option String) (cwd : String),
      (ParaViewDriver.init src oft none).outDir cwd none = abspath cwd curdir)
    ∧ (ParaViewDriver.init "/data/flow.dat" none none).outDir "/tmp" none = "/tmp"
    ∧ dirname "/data/flow.dat" = "/data" := by
  refine ⟨fun src oft cwd => rfl, by decide, by decide⟩

/-- C2: for a non-absolute output name the resolved print path is the
resolved output directory joined with the name plus a dot and the
configured file type; for an absolute name the `out_dir` argument is
irrelevant; and `_out_dir` resolves with precedence explicit argument
(when truthy), else the instance attribute (when truthy), else the input
file's own directory. -/
theorem pv_print_path_resolution
    (d : ParaViewDriver) (cwd name s : String) (out_dir : Option String) :
    (isabs name = false →
      (d.setPrintFilename cwd name out_dir).print_filename =
        some (join (d.outDir cwd out_dir) name ++ "." ++ d.filetype))
    ∧ (isabs name = true → ∀ out_dir' : Option String,
        (d.setPrintFilename cwd name out_dir).print_filename =
          (d.setPrintFilename cwd name out_dir').print_filename)
    ∧ (s ≠ "" → d.outDir cwd (some s) = abspath cwd s)
    ∧ (s ≠ "" → ∀ e : Option String, e = none ∨ e = some "" →
        ParaViewDriver.outDir { d with out_dir := some s } cwd e = abspath cwd s)
    ∧ (∀ e o : Option String, e = none ∨ e = some "" →
        o = none ∨ o = some "" →
        ParaViewDriver.outDir { d with out_dir := o } cwd e =
          abspath cwd (dirname d.mesh_flow_src)) := by
  refine ⟨?_, ?_, ?_, ?_, ?_⟩
  · intro h
    simp [ParaViewDriver.setPrintFilename, ParaViewDriver.makeAbsPath, h]
  · intro h out_dir'
    simp [ParaViewDriver.setPrintFilename, ParaViewDriver.makeAbsPath, h]
  · intro h
    simp [ParaViewDriver.outDir, pyOrStr, h]
  · intro h e he
    rcases he with he | he <;> subst he <;>
      simp [ParaViewDriver.outDir, pyOrStr, h]
  · intro e o he ho
    rcases he with he | he <;> rcases ho with ho | ho <;>
      subst he <;> subst ho <;> simp [ParaViewDriver.outDir, pyOrStr]

/-- C2 witness: concrete instantiations of the joined-path case, the
explicit-argument precedence case and the final dirname fallback. -/
theorem pv_print_path_resolution_witness :
    ((ParaViewDriver.init "/data/flow.dat" none none).setPrintFilename
        "/cwd" "name" (some "/out")).print_filename =
      some (join ((ParaViewDriver.init "/data/flow.dat" none none).outDir
        "/cwd" (some "/out")) "name" ++ "." ++
        (ParaViewDriver.init "/data/flow.dat" none none).filetype)
    ∧ (ParaViewDriver.init "/data/flow.dat" none none).outDir "/cwd" (some "/out") =
        abspath "/cwd" "/out"
    ∧ ParaViewDriver.outDir
        { ParaViewDriver.init "/data/flow.dat" none none with out_dir := none }
        "/cwd" none = abspath "/cwd" (dirname "/data/flow.dat") :=
  ⟨(pv_print_path_resolution (ParaViewDriver.init "/data/flow.dat" none none)
      "/cwd" "name" "/out" (some "/out")).1 (by decide),
   (pv_print_path_resolution (ParaViewDriver.init "/data/flow.dat" none none)
      "/cwd" "name" "/out" (some "/out")).2.2.1 (by decide),
   (pv_print_path_resolution (ParaViewDriver.init "/data/flow.dat" none none)
      "/cwd" "name" "/out" none).2.2.2.2 none none (Or.inl rfl) (Or.inl rfl)⟩

/-- C8: `_set_print_filename` always appends a dot and the configured file
type to the resolved name — also when the given name is absolute (where
`_make_abs_path` returns it unchanged), and hence also when it already
carries an extension. -/
theorem pv_extension_always_appended
    (d : ParaViewDriver) (cwd name : String) (out_dir : Option String) :
    (d.setPrintFilename cwd name out_dir).print_filename =
      some (d.makeAbsPath cwd name out_dir ++ "." ++ d.filetype)
    ∧ (isabs name = true →
        (d.setPrintFilename cwd name out_dir).print_filename =
          some (name ++ "." ++ d.filetype)) := by
  refine ⟨rfl, fun h => ?_⟩
  simp [ParaViewDriver.setPrintFilename, ParaViewDriver.makeAbsPath, h]

/-- C8 witness: an absolute name that already ends in an extension still
gets `.pdf` appended. -/
theorem pv_extension_always_appended_witness :
    isabs "/abs/pic.png" = true
    ∧ ((ParaViewDriver.init "/data/flow.dat" none none).setPrintFilename
        "/cwd" "/abs/pic.png" (some "/out")).print_filename =
      some ("/abs/pic.png" ++ "." ++
        (ParaViewDriver.init "/data/flow.dat" none none).filetype) :=
  ⟨by decide,
   (pv_extension_always_appended (ParaViewDriver.init "/data/flow.dat" none none)
      "/cwd" "/abs/pic.png" (some "/out")).2 (by decide)⟩

/-- C3: through `get_quality`, `print_quality` and
`print_quality_distribution` (all of which funnel the keyword overrides
into `_setup_mesh_quality`), passing `quad=X` changes only the
quadrilateral measure, passing `triangle=X` or `tri=X` changes only the
triangular measure, and passing neither (whatever other keywords are
present, flag `b`) leaves both prior instance defaults unchanged. -/
theorem pv_measure_override_frame (d : ParaViewDriver) (X : String)
    (b : Bool) (cwd : String) (lut : Bool) (fmt : String) :
    ((d.getQuality ⟨some X, none, none, b⟩).measure_quad = X
      ∧ (d.getQuality ⟨some X, none, none, b⟩).measure_triangle = d.measure_triangle)
    ∧ ((d.getQuality ⟨none, none, some X, b⟩).measure_triangle = X
      ∧ (d.getQuality ⟨none, none, some X, b⟩).measure_quad = d.measure_quad)
    ∧ ((d.getQuality ⟨none, some X, none, b⟩).measure_triangle = X
      ∧ (d.getQuality ⟨none, some X, none, b⟩).measure_quad = d.measure_quad)
    ∧ ((d.getQuality ⟨none, none, none, b⟩).measure_quad = d.measure_quad
      ∧ (d.getQuality ⟨none, none, none, b⟩).measure_triangle = d.measure_triangle)
    ∧ ((d.printQuality cwd none none false ⟨some X, none, none, b⟩ lut).state.measure_quad = X
      ∧ (d.printQuality cwd none none false ⟨some X, none, none, b⟩ lut).state.measure_triangle = d.measure_triangle)
    ∧ ((d.printQuality cwd none none false ⟨none, none, some X, b⟩ lut).state.measure_triangle = X
      ∧ (d.printQuality cwd none none false ⟨none, none, some X, b⟩ lut).state.measure_quad = d.measure_quad)
    ∧ ((d.printQualityDistribution cwd false none fmt none none ⟨some X, none, none, b⟩).state.measure_quad = X
      ∧ (d.printQualityDistribution cwd false none fmt none none ⟨some X, none, none, b⟩).state.measure_triangle = d.measure_triangle)
    ∧ ((d.printQualityDistribution cwd false none fmt none none ⟨none, some X, none, b⟩).state.measure_triangle = X
      ∧ (d.printQualityDistribution cwd false none fmt none none ⟨none, some X, none, b⟩).state.measure_quad = d.measure_quad) := by
  refine ⟨⟨?_, ?_⟩, ⟨?_, ?_⟩, ⟨?_, ?_⟩, ⟨?_, ?_⟩, ⟨?_, ?_⟩, ⟨?_, ?_⟩,
    ⟨?_, ?_⟩, ⟨?_, ?_⟩⟩ <;>
  simp [ParaViewDriver.getQuality, ParaViewDriver.setupMeshQuality,
    MeasureKwargs.nonempty, ParaViewDriver.printQuality,
    ParaViewDriver.setPrintFilename, ParaViewDriver.printQualityDistribution]

/-- C9: the measure overrides are persistent instance state.  When both
`tri=X` and `triangle=Y` are passed, `triangle` wins (it is read last).
After `get_quality(quad=X)` (resp. `tri=X`), the stored default is `X`,
and a subsequent call that omits the override uses `X` in the default
color-bar title of `print_quality` and in the default distribution
filename of `print_quality_distribution`. -/
theorem pv_measure_override_persistence (d : ParaViewDriver)
    (X Y : String) (b : Bool) (cwd fmt : String) (lut : Bool) :
    (d.setupMeshQuality ⟨none, some X, some Y, b⟩).1.measure_triangle = Y
    ∧ (d.getQuality ⟨some X, none, none, false⟩).measure_quad = X
    ∧ ((d.getQuality ⟨some X, none, none, false⟩).printQuality cwd none none
        false MeasureKwargs.empty lut).colorBarTitle =
      "Quality - Quad: " ++ X ++ " - Tri: " ++
        (d.getQuality ⟨some X, none, none, false⟩).measure_triangle
    ∧ ((d.getQuality ⟨some X, none, none, false⟩).printQualityDistribution
        cwd false none fmt none none MeasureKwargs.empty).filename =
      print_filenames_distribution ++ "_" ++ X ++ "." ++ fmt
    ∧ (d.getQuality ⟨none, some X, none, false⟩).measure_triangle = X
    ∧ ((d.getQuality ⟨none, some X, none, false⟩).printQuality cwd none none
        false MeasureKwargs.empty lut).colorBarTitle =
      "Quality - Quad: " ++
        (d.getQuality ⟨none, some X, none, false⟩).measure_quad ++
        " - Tri: " ++ X := by
  refine ⟨?_, ?_, ?_, ?_, ?_, ?_⟩ <;>
  simp [ParaViewDriver.getQuality, ParaViewDriver.setupMeshQuality,
    MeasureKwargs.nonempty, MeasureKwargs.empty, ParaViewDriver.printQuality,
    ParaViewDriver.setPrintFilename, ParaViewDriver.printQualityDistribution,
    pyOrStr]

/-- C4: distribution-plot filename resolution.  A filename containing a
dot keeps its name and forces the saved format to the text after its last
dot, whatever `fmt` was passed; a dotless filename gets `.` and `fmt`
appended; no filename yields
`mesh_quality_distribution_<measure_quad>.<fmt>`. -/
theorem pv_distribution_filename_inference (d : ParaViewDriver)
    (cwd fmt fmt2 f : String) (out_dir : Option String) (qoiGiven : Bool)
    (title : Option String) (m : MeasureKwargs) :
    (containsDot f = true →
      (d.printQualityDistribution cwd qoiGiven title fmt (some f) out_dir m).fmt =
        afterLastDot f
      ∧ (d.printQualityDistribution cwd qoiGiven title fmt (some f) out_dir m).filename = f
      ∧ (d.printQualityDistribution cwd qoiGiven title fmt (some f) out_dir m).fmt =
          (d.printQualityDistribution cwd qoiGiven title fmt2 (some f) out_dir m).fmt)
    ∧ (containsDot f = false →
      (d.printQualityDistribution cwd qoiGiven title fmt (some f) out_dir m).filename =
        f ++ "." ++ fmt
      ∧ (d.printQualityDistribution cwd qoiGiven title fmt (some f) out_dir m).fmt = fmt)
    ∧ (d.printQualityDistribution cwd qoiGiven title fmt none out_dir m).filename =
        print_filenames_distribution ++ "_" ++
          (d.printQualityDistribution cwd qoiGiven title fmt none out_dir m).state.measure_quad
          ++ "." ++ fmt := by
  refine ⟨fun h => ?_, fun h => ?_, ?_⟩
  · simp [ParaViewDriver.printQualityDistribution, h]
  · simp [ParaViewDriver.printQualityDistribution, h]
  · simp [ParaViewDriver.printQualityDistribution]

/-- C4 witness: `filename="foo.svg"` with `fmt="png"` saves format `svg`
and keeps the name; `filename="foo"` with `fmt="png"` saves `foo.png`. -/
theorem pv_distribution_filename_inference_witness :
    ((ParaViewDriver.init "/data/flow.dat" none none).printQualityDistribution
        "/cwd" true none "png" (some "foo.svg") none MeasureKwargs.empty).fmt = "svg"
    ∧ ((ParaViewDriver.init "/data/flow.dat" none none).printQualityDistribution
        "/cwd" true none "png" (some "foo.svg") none MeasureKwargs.empty).filename = "foo.svg"
    ∧ ((ParaViewDriver.init "/data/flow.dat" none none).printQualityDistribution
        "/cwd" true none "png" (some "foo.svg") none MeasureKwargs.empty).fmt =
      ((ParaViewDriver.init "/data/flow.dat" none none).printQualityDistribution
        "/cwd" true none "pdf" (some "foo.svg") none MeasureKwargs.empty).fmt
    ∧ ((ParaViewDriver.init "/data/flow.dat" none none).printQualityDistribution
        "/cwd" true none "png" (some "foo") none MeasureKwargs.empty).filename = "foo.png"
    ∧ ((ParaViewDriver.init "/data/flow.dat" none none).printQualityDistribution
        "/cwd" true none "png" (some "foo") none MeasureKwargs.empty).fmt = "png" := by
  have h1 := (pv_distribution_filename_inference
    (ParaViewDriver.init "/data/flow.dat" none none) "/cwd" "png" "pdf"
    "foo.svg" none true none MeasureKwargs.empty).1 (by decide)
  have h2 := (pv_distribution_filename_inference
    (ParaViewDriver.init "/data/flow.dat" none none) "/cwd" "png" "pdf"
    "foo" none true none MeasureKwargs.empty).2.1 (by decide)
  exact ⟨h1.1, h1.2.1, h1.2.2, h2.1, h2.2⟩

/-- C7: in `print_quality` with `invert_colors` true, the transfer
function is inverted before the export (the export sees orientation
`!lut0`) and re-inverted afterwards (the function returns with the
pre-call orientation `lut0`); the trace shows the export followed by
hiding the data and `HideScalarBarIfNotNeeded`, with the second
inversion last.  With `invert_colors` false, the orientation is never
touched. -/
theorem pv_invert_colors_scoped (d : ParaViewDriver) (cwd : String)
    (file_out color_bar_title : Option String) (m : MeasureKwargs)
    (lut0 : Bool) :
    (d.printQuality cwd file_out color_bar_title true m lut0).lutAtExport = !lut0
    ∧ (d.printQuality cwd file_out color_bar_title true m lut0).lutFinal = lut0
    ∧ (d.printQuality cwd file_out color_bar_title true m lut0).trace =
        [SceneOp.invertTransferFunction,
         SceneOp.exportView
           ((d.setPrintFilename cwd (pyOrStr file_out print_filenames_quality)
              none).print_filename.getD "") (!lut0),
         SceneOp.hideQuality, SceneOp.hideScalarBarIfNotNeeded,
         SceneOp.invertTransferFunction]
    ∧ (d.printQuality cwd file_out color_bar_title false m lut0).lutAtExport = lut0
    ∧ (d.printQuality cwd file_out color_bar_title false m lut0).lutFinal = lut0 := by
  refine ⟨?_, ?_, ?_, ?_, ?_⟩ <;>
  simp [ParaViewDriver.printQuality]

/-- The search loop returns the first candidate whose python subdirectory
holds the marker file (helper for the installer claims). -/
theorem selectSrcDirs_eq_find (pythonSrc : String → String)
    (isfile : String → Bool) :
    ∀ (locs : List String) (loc : String),
      locs.find? (fun l => isfile (markerPath (pythonSrc l))) = some loc →
      selectSrcDirs pythonSrc isfile locs = (some (pythonSrc loc), some loc) := by
  intro locs
  induction locs with
  | nil => intro loc h; simp at h
  | cons a rest ih =>
    intro loc h
    cases rest with
    | nil =>
      have hloc : a = loc := by
        cases hpa : isfile (markerPath (pythonSrc a)) with
        | true => simpa [List.find?_cons, hpa] using h
        | false => simp [List.find?_cons, hpa] at h
      subst hloc
      simp [selectSrcDirs]
    | cons r rs =>
      by_cases ha : isfile (markerPath (pythonSrc a)) = true
      · have hloc : a = loc := by simpa [List.find?_cons, ha] using h
        subst hloc
        simp [selectSrcDirs, ha]
      · have ha' : isfile (markerPath (pythonSrc a)) = false := by
          simpa using ha
        simp only [List.find?_cons, ha'] at h
        simp only [selectSrcDirs]
        rw [if_neg ha]
        exact ih loc h

/-- C6: the installer selects the first candidate location whose python
subdirectory contains `site-packages/vtk.py`; the shared-object copy plan
consists of exactly nine `copyfile` operations, one per name of the fixed
list (with the `WrappingPythonCore` entry carrying the python version
suffix), from the selected library directory into the destination `lib`
directory; and the site-packages copy plan copies every entry (file or
directory) of the source `site-packages` tree into the destination
site-packages. -/
theorem installer_selects_first_match_and_copy_plan
    (pythonSrc : String → String) (isfile : String → Bool)
    (locs : List String) (loc : String)
    (src_lib_dir exec_prefix src_python_dir dest_site : String)
    (entries : List DirEnt) :
    (locs.find? (fun l => isfile (markerPath (pythonSrc l))) = some loc →
      selectSrcDirs pythonSrc isfile locs = (some (pythonSrc loc), some loc))
    ∧ (soCopyPlan src_lib_dir exec_prefix src_python_dir).length = 9
    ∧ (∀ f ∈ soBaseList src_python_dir,
        CopyOp.file (join src_lib_dir (soFileName f))
            (join (join exec_prefix "lib") (soFileName f)) ∈
          soCopyPlan src_lib_dir exec_prefix src_python_dir)
    ∧ (sitePackagesCopyPlan src_python_dir dest_site entries).length =
        entries.length
    ∧ (∀ e ∈ entries,
        (if e.is_file then
          CopyOp.file (join (join src_python_dir "site-packages") e.name)
            (join dest_site e.name)
         else
          CopyOp.tree (join (join src_python_dir "site-packages") e.name)
            (join dest_site e.name)) ∈
          sitePackagesCopyPlan src_python_dir dest_site entries) := by
  refine ⟨selectSrcDirs_eq_find pythonSrc isfile locs loc, ?_, ?_, ?_, ?_⟩
  · simp [soCopyPlan, soBaseList]
  · intro f hf
    unfold soCopyPlan
    exact List.mem_map_of_mem _ hf
  · simp [sitePackagesCopyPlan]
  · intro e he
    unfold sitePackagesCopyPlan
    exact List.mem_map_of_mem _ he

/-- C6 witness: three concrete candidates where the second holds the
marker; a concrete shared-object name and a concrete directory entry are
in the respective copy plans. -/
theorem installer_selects_first_match_and_copy_plan_witness :
    selectSrcDirs (fun l => join l "python3.9")
        (fun p => decide (p = "/prefix/lib/python3.9/site-packages/vtk.py"))
        ["/home/paraview/build/lib", "/prefix/lib", "/prefix/lib64"] =
      (some (join "/prefix/lib" "python3.9"), some "/prefix/lib")
    ∧ CopyOp.file (join "/src" (soFileName "RemotingCore"))
        (join (join "/env" "lib") (soFileName "RemotingCore")) ∈
      soCopyPlan "/src" "/env" "/prefix/lib/python3.9"
    ∧ (if (DirEnt.mk "paraview" false).is_file then
        CopyOp.file
          (join (join "/prefix/lib/python3.9" "site-packages") (DirEnt.mk "paraview" false).name)
          (join "/site" (DirEnt.mk "paraview" false).name)
       else
        CopyOp.tree
          (join (join "/prefix/lib/python3.9" "site-packages") (DirEnt.mk "paraview" false).name)
          (join "/site" (DirEnt.mk "paraview" false).name)) ∈
      sitePackagesCopyPlan "/prefix/lib/python3.9" "/site"
        [DirEnt.mk "vtk.py" true, DirEnt.mk "paraview" false] :=
  ⟨(installer_selects_first_match_and_copy_plan (fun l => join l "python3.9")
      (fun p => decide (p = "/prefix/lib/python3.9/site-packages/vtk.py"))
      ["/home/paraview/build/lib", "/prefix/lib", "/prefix/lib64"] "/prefix/lib"
      "/src" "/env" "/prefix/lib/python3.9" "/site"
      [DirEnt.mk "vtk.py" true, DirEnt.mk "paraview" false]).1 (by decide),
   (installer_selects_first_match_and_copy_plan (fun l => join l "python3.9")
      (fun p => decide (p = "/prefix/lib/python3.9/site-packages/vtk.py"))
      ["/home/paraview/build/lib", "/prefix/lib", "/prefix/lib64"] "/prefix/lib"
      "/src" "/env" "/prefix/lib/python3.9" "/site"
      [DirEnt.mk "vtk.py" true, DirEnt.mk "paraview" false]).2.2.1
      "RemotingCore" (by decide),
   (installer_selects_first_match_and_copy_plan (fun l => join l "python3.9")
      (fun p => decide (p = "/prefix/lib/python3.9/site-packages/vtk.py"))
      ["/home/paraview/build/lib", "/prefix/lib", "/prefix/lib64"] "/prefix/lib"
      "/src" "/env" "/prefix/lib/python3.9" "/site"
      [DirEnt.mk "vtk.py" true, DirEnt.mk "paraview" false]).2.2.2.2
      (DirEnt.mk "paraview" false) (by decide)⟩

/-- C10: when no candidate holds the marker file, the search loop over
`paraview_locations` completes and leaves the last candidate — `lib64`
under the install prefix — selected (together with its python
subdirectory), so the copy steps proceed against that location. -/
theorem installer_no_match_selects_last
    (findLibFolder prefix_dir : String) (pythonSrc : String → String)
    (isfile : String → Bool)
    (h : ∀ l ∈ paraviewLocations findLibFolder prefix_dir,
      isfile (markerPath (pythonSrc l)) = false) :
    selectSrcDirs pythonSrc isfile
        (paraviewLocations findLibFolder prefix_dir) =
      (some (pythonSrc (join prefix_dir "lib64")),
        some (join prefix_dir "lib64"))
    ∧ (paraviewLocations findLibFolder prefix_dir).getLast? =
        some (join prefix_dir "lib64") := by
  have h1 := h findLibFolder (by simp [paraviewLocations])
  have h2 := h (join prefix_dir "lib") (by simp [paraviewLocations])
  have h3 := h (join prefix_dir "lib64") (by simp [paraviewLocations])
  refine ⟨?_, by simp [paraviewLocations]⟩
  simp [selectSrcDirs, paraviewLocations, h1, h2, h3]

/-- C10 witness: a file system with no marker anywhere selects
`/usr/local/lib64`. -/
theorem installer_no_match_selects_last_witness :
    selectSrcDirs (fun l => join l "python3.9") (fun _ => false)
        (paraviewLocations "/home/pb/lib" "/usr/local") =
      (some (join (join "/usr/local" "lib64") "python3.9"),
        some (join "/usr/local" "lib64"))
    ∧ (paraviewLocations "/home/pb/lib" "/usr/local").getLast? =
        some (join "/usr/local" "lib64") :=
  installer_no_match_selects_last "/home/pb/lib" "/usr/local"
    (fun l => join l "python3.9") (fun _ => false) (fun _ _ => rfl)

end PVDriver
